import Mathlib

/-!
Verification of the VST3 host core (src/engine/vst3_host/vst3_host.cpp)
against its natural-language specification.

The C++ file is shallowly embedded below.  Pointers to external VST3
capability objects (component, controller, view) are modelled as presence
flags plus abstract behaviour records; `tresult` values are integers with
the SDK's constants (`kResultOk = kResultTrue = 0`); byte buffers are
`List Nat` with each element < 256; the signed 32-bit reads the source
performs with `memcpy` are modelled exactly (two's-complement decode of
four native-order bytes, little-endian on every supported target).
-/

/-- VST3 `tresult` success constant (`kResultOk`), 0 on all targets. -/
def kResultOk : Int := 0

/-- VST3 `tresult` constant `kResultTrue`; equal to `kResultOk` in the SDK. -/
def kResultTrue : Int := 0

/-- VST3 `tresult` constant `kResultFalse` (negative acknowledgement). -/
def kResultFalse : Int := 1

/-- VST3 `tresult` constant `kInvalidArgument`. -/
def kInvalidArgument : Int := 2

/-- Error taxonomy of the host (spec section 7).  The C functions report
failure through a `false`/`-1`/null return plus `set_error`; each embedded
failure path is tagged with the spec's name for that failure. -/
inductive VstErr where
  | invalidHandle
  | invalidParent
  | noProcessor
  | notActive
  | processingFailed
  | queueFull
  | unknownMidiEventType
  | stateFormat
  | compGetStateFailed
  | compSetStateFailed
  | editorNotOpened
  | noEditorView
  | platformUnsupported
  | attachFailed
  deriving DecidableEq, Repr

/-- Kind of a queued MIDI event (`Event::kNoteOnEvent` / `Event::kNoteOffEvent`). -/
inductive EKind where
  | noteOn
  | noteOff
  deriving DecidableEq, Repr

/-- A queued VST3 `Event` as built by `vst3_process_midi_event`
(vst3_host.cpp lines 867-894).  `velData` keeps the raw 0-127 integer; the
source stores `data2 / 127.0f` as a 32-bit float, which no claim observes. -/
structure MidiEvent where
  kind : EKind
  channel : Int
  pitch : Int
  velData : Int
  sampleOffset : Int
  deriving DecidableEq, Repr

/-- Event-queue capacity: `midi_events(128)` in the `VST3PluginInstance`
constructor (vst3_host.cpp line 196). -/
def eventQueueCapacity : Nat := 128

/-- Modelled from the spec: the SDK hosting helper `EventList` (not part of
src/; §4.4 "bounded FIFO ... capacity fixed at instance creation (128)",
"fails with `QueueFullError` if capacity (128) is exceeded").  `addEvent`
appends when the queue holds fewer than `eventQueueCapacity` events and
fails (non-`kResultOk` return) when full. -/
def eventListAddEvent (q : List MidiEvent) (e : MidiEvent) : Option (List MidiEvent) :=
  if q.length < eventQueueCapacity then some (q ++ [e]) else none

/-- The mutable per-instance fields of `VST3PluginInstance`
(vst3_host.cpp lines 166-201) that the claims observe.  The externally
owned capability objects are modelled as presence flags. -/
structure Instance where
  hasProcessor : Bool
  hasController : Bool
  initDone : Bool
  active : Bool
  midi_events : List MidiEvent
  editor_view : Bool
  plug_frame : Bool
  parent_window : Bool
  editor_open : Bool
  deriving DecidableEq, Repr

/-- Helper of `vst3_process_midi_event`: queue the built event via
`instance->midi_events.addEvent(event)` (vst3_host.cpp lines 906-913),
reporting "Failed to queue MIDI event" on a non-`kResultOk` return. -/
def hostAddEvent (inst : Instance) (e : MidiEvent) : Option VstErr × Instance :=
  match eventListAddEvent inst.midi_events e with
  | some q => (none, { inst with midi_events := q })
  | none => (some .queueFull, inst)

/-- `vst3_process_midi_event` (vst3_host.cpp lines 848-914).  The handle is
assumed non-null (a null handle fails with "Invalid handle" before anything
else).  Event types: 0 = note on, 1 = note off, 2 = CC (accepted as a
no-op), anything else fails with "Unknown MIDI event type". -/
def vst3_process_midi_event (inst : Instance)
    (event_type channel data1 data2 sample_offset : Int) : Option VstErr × Instance :=
  if ¬inst.hasProcessor then (some .noProcessor, inst)
  else if event_type = 0 then
    hostAddEvent inst ⟨.noteOn, channel, data1, data2, sample_offset⟩
  else if event_type = 1 then
    hostAddEvent inst ⟨.noteOff, channel, data1, data2, sample_offset⟩
  else if event_type = 2 then
    (none, inst)
  else
    (some .unknownMidiEventType, inst)

/-- `vst3_process_audio` (vst3_host.cpp lines 774-846), state-relevant part.
`procResult` is the `tresult` the plugin's `processor->process(data)` call
returns (third-party behaviour, hence a parameter).  The queue is cleared
(`instance->midi_events.clear()`) after the process call, before the result
check, so it is cleared on success and on failure alike. -/
def vst3_process_audio (inst : Instance) (procResult : Int) : Option VstErr × Instance :=
  if ¬(inst.active ∧ inst.hasProcessor) then (some .notActive, inst)
  else
    let inst' := { inst with midi_events := [] }
    if procResult ≠ kResultOk ∧ procResult ≠ kResultTrue then
      (some .processingFailed, inst')
    else
      (none, inst')

/-- `vst3_activate_plugin` (vst3_host.cpp lines 732-760): succeeds only on
an initialized instance that has a processor; `setProcResult` is the
plugin's `setProcessing(true)` return. -/
def vst3_activate_plugin (inst : Instance) (setProcResult : Int) : Option VstErr × Instance :=
  if ¬(inst.initDone ∧ inst.hasProcessor) then (some .invalidHandle, inst)
  else if setProcResult ≠ kResultOk then (some .processingFailed, inst)
  else (none, { inst with active := true })

/-- A sequence of `vst3_process_midi_event` calls, one per entry
`(event_type, channel, data1, data2, sample_offset)`; stops and reports
failure at the first failing call. -/
def enqueueSeq : List (Int × Int × Int × Int × Int) → Instance → Bool × Instance
  | [], inst => (true, inst)
  | (t, c, d1, d2, off) :: rest, inst =>
    match vst3_process_midi_event inst t c d1 d2 off with
    | (none, i') => enqueueSeq rest i'
    | (some _, i') => (false, i')

/-- Calls made on the plugin's `IPlugView` (and on the previous parent) by
the editor embedder, in program order. -/
inductive VAct where
  | setFrameNull
  | removedCall
  | platformQuery
  | getSizeQuery
  | setFrameHost
  | attachedCall
  deriving DecidableEq, Repr

/-- Third-party behaviour of the editor view during `vst3_attach_editor`:
the results of `isPlatformTypeSupported`, `getSize` and `attached`. -/
structure ViewBehavior where
  platformSupported : Bool
  getSizeOk : Bool
  attachedOk : Bool
  deriving DecidableEq, Repr

/-- `vst3_attach_editor` (vst3_host.cpp lines 1324-1500).  The handle is
assumed non-null; `parentValid` models the `!parent` null check.  Returns
the error (if any), the new instance state and the trace of view calls.
The exception paths around `attached()` fold into `attachedOk = false`. -/
def vst3_attach_editor (inst : Instance) (vb : ViewBehavior) (parentValid : Bool) :
    Option VstErr × Instance × List VAct :=
  if ¬parentValid then (some .invalidParent, inst, [])
  else if ¬inst.editor_open then (some .editorNotOpened, inst, [])
  else if ¬inst.editor_view then (some .noEditorView, inst, [])
  else
    -- Detach from previous parent if needed (lines 1380-1388)
    let detachActs : List VAct :=
      if inst.parent_window then [.setFrameNull, .removedCall] else []
    let inst1 := if inst.parent_window then { inst with parent_window := false } else inst
    -- isPlatformTypeSupported check (lines 1415-1420)
    if ¬vb.platformSupported then
      (some .platformUnsupported, inst1, detachActs ++ [.platformQuery])
    else
      -- preferred-size getSize (line 1426, result only logged), PlugFrame
      -- creation (lines 1441-1445), setFrame (line 1449, result logged),
      -- pre-attach getSize (line 1458), attached (line 1469)
      let inst2 := { inst1 with plug_frame := true }
      let acts := detachActs ++
        [.platformQuery, .getSizeQuery, .setFrameHost, .getSizeQuery, .attachedCall]
      if ¬vb.attachedOk then (some .attachFailed, inst2, acts)
      else (none, { inst2 with parent_window := true }, acts)

/-- `vst3_close_editor` (vst3_host.cpp lines 1275-1298): clear the frame,
detach if attached, release the view and the plug frame, mark closed. -/
def vst3_close_editor (inst : Instance) : Instance × List VAct :=
  if inst.editor_view then
    let acts := if inst.parent_window then [VAct.setFrameNull, VAct.removedCall]
      else [VAct.setFrameNull]
    ({ inst with editor_view := false, parent_window := false,
                 plug_frame := false, editor_open := false }, acts)
  else
    ({ inst with plug_frame := false, editor_open := false }, [])

/-- The view never receives `attached` before the host's frame was
installed with `setFrame`: every `attachedCall` in the trace is preceded by
an earlier `setFrameHost`. -/
def SetFrameBeforeAttached (tr : List VAct) : Prop :=
  ∀ j : Fin tr.length, tr.get j = VAct.attachedCall →
    ∃ i : Fin tr.length, (i : Nat) < (j : Nat) ∧ tr.get i = VAct.setFrameHost

/-- A view rectangle (`ViewRect`): left, top, right, bottom. -/
structure VRect where
  left : Int
  top : Int
  right : Int
  bottom : Int
  deriving DecidableEq, Repr

/-- Third-party behaviour of the view during `PlugFrame::resizeView`:
whether `getSize` succeeds, the view's cached rectangle, and the resize
requests the view issues synchronously from within `onSize`. -/
structure ResizeViewModel where
  viewPtrValid : Bool
  getSizeOk : Bool
  cached : VRect
  nested : List VRect
  deriving DecidableEq, Repr

/-- Observable effects of `PlugFrame::resizeView`: resizing the host-owned
container (`vst3_resize_nsview`), notifying the view (`onSize`), and the
outcome of each nested (reentrant) resize request. -/
inductive RVEffect where
  | resizeContainer (w h : Int)
  | onSizeCall (r : VRect)
  | nestedReply (result : Int) (fx : List RVEffect)

/-- `PlugFrame::resizeView` (vst3_host.cpp lines 211-258).  `guard` is the
frame's `resizeRecursionGuard_`; the unguarded branch sets it before doing
any work, so every resize request the view issues synchronously from
`onSize` is serviced with `guard = true`. -/
def PlugFrame.resizeView (hasParentWindow : Bool) (v : ResizeViewModel)
    (newSize : Option VRect) (guard : Bool) : Int × List RVEffect :=
  match newSize with
  | none => (kInvalidArgument, [])
  | some r =>
    if ¬v.viewPtrValid then (kInvalidArgument, [])
    else if guard then (kResultFalse, [])
    else
      let w := r.right - r.left
      let h := r.bottom - r.top
      let containerFx : List RVEffect :=
        if hasParentWindow then [.resizeContainer w h] else []
      let onSizeFx : List RVEffect :=
        if v.getSizeOk &&
            ((v.cached.right - v.cached.left != w) || (v.cached.bottom - v.cached.top != h)) then
          .onSizeCall r :: v.nested.map (fun q =>
            RVEffect.nestedReply (PlugFrame.resizeView hasParentWindow v (some q) true).1
              (PlugFrame.resizeView hasParentWindow v (some q) true).2)
        else []
      (kResultTrue, containerFx ++ onSizeFx)
termination_by (if guard then 0 else 1)
decreasing_by all_goals simp_all

/-- Encode a 32-bit length the way `memcpy(ptr, &processorSize, 4)` lays an
`int32` out in memory on the supported (little-endian) targets. -/
def enc32 (n : Nat) : List Nat :=
  [n % 256, n / 256 % 256, n / 65536 % 256, n / 16777216 % 256]

/-- Reassemble four native-order bytes into the unsigned value they spell. -/
def leU32 (b : List Nat) : Nat :=
  b.getD 0 0 + 256 * (b.getD 1 0 + 256 * (b.getD 2 0 + 256 * (b.getD 3 0)))

/-- Reinterpret an unsigned 32-bit value as the `int32` the source's
`memcpy(&processorSize, ptr, 4)` produces (two's complement). -/
def asInt32 (u : Nat) : Int :=
  if u < 2147483648 then (u : Int) else (u : Int) - 4294967296

/-- Third-party state behaviour of the capability objects: `getState` /
`setState` of the component, `setComponentState` / `getState` / `setState`
of the controller.  States are opaque (`Nat`); blobs are byte lists;
`none` models a non-`kResultOk` return. -/
structure CodecOps where
  compGetState : Nat → Option (List Nat)
  compSetState : List Nat → Nat → Option Nat
  ctrlGetState : Nat → Option (List Nat)
  ctrlSetState : List Nat → Nat → Option Nat
  ctrlSetComponentState : List Nat → Nat → Nat

/-- The state-codec view of a plugin instance: presence of the two
capability objects and their current opaque states. -/
structure CodecInst where
  hasComponent : Bool
  hasController : Bool
  comp : Nat
  ctrl : Nat
  deriving DecidableEq, Repr

/-- The controller blob `vst3_get_state` captures (vst3_host.cpp lines
1126-1134): empty when there is no controller or its `getState` fails
(`hasControllerState == false` makes `controllerSize = 0`). -/
def controllerBlob (ops : CodecOps) (inst : CodecInst) : List Nat :=
  if inst.hasController then
    match ops.ctrlGetState inst.ctrl with
    | some b => b
    | none => []
  else []

/-- `vst3_get_state` (vst3_host.cpp lines 1113-1161).  The handle and the
`data` pointer are assumed non-null; `none` models the `-1` failure
return; on success the result is the returned total size together with the
bytes written into the caller's buffer. -/
def vst3_get_state (ops : CodecOps) (inst : CodecInst) (maxSize : Int) :
    Option (Int × List Nat) :=
  if maxSize < 8 then none
  else if ¬inst.hasComponent then none
  else
    match ops.compGetState inst.comp with
    | none => none
    | some pBlob =>
      let cBlob := controllerBlob ops inst
      let total : Int := 8 + pBlob.length + cBlob.length
      if total > maxSize then none
      else some (total, enc32 pBlob.length ++ enc32 cBlob.length ++ pBlob ++ cBlob)

/-- `vst3_set_state` (vst3_host.cpp lines 1163-1213).  The handle and data
pointer are assumed non-null; `data.length` is the `size` argument.  The
two header lengths are decoded exactly as the source's `int32` `memcpy`
reads them (two's complement); the `8 + processorSize + controllerSize`
validation is the C `int` expression, exact on every input where that
expression does not overflow (signed overflow is undefined in the source).
Early failure returns leave the instance untouched; a controller
`setState` failure is deliberately non-fatal (lines 1203-1209). -/
def vst3_set_state (ops : CodecOps) (inst : CodecInst) (data : List Nat) :
    Option VstErr × CodecInst :=
  if data.length < 8 then (some .stateFormat, inst)
  else if ¬inst.hasComponent then (some .invalidHandle, inst)
  else
    let p : Int := asInt32 (leU32 (data.take 4))
    let c : Int := asInt32 (leU32 ((data.drop 4).take 4))
    if 8 + p + c > (data.length : Int) then (some .stateFormat, inst)
    else
      let body := data.drop 8
      let afterComp : Option CodecInst :=
        if p > 0 then
          match ops.compSetState (body.take p.toNat) inst.comp with
          | none => none
          | some comp' =>
            let i1 := { inst with comp := comp' }
            if inst.hasController then
              some { i1 with ctrl := ops.ctrlSetComponentState (body.take p.toNat) i1.ctrl }
            else some i1
        else some inst
      match afterComp with
      | none => (some .compSetStateFailed, inst)
      | some i2 =>
        let i3 :=
          if c > 0 ∧ i2.hasController then
            match ops.ctrlSetState ((body.drop p.toNat).take c.toNat) i2.ctrl with
            | some ctrl' => { i2 with ctrl := ctrl' }
            | none => i2
          else i2
        (none, i3)

theorem enc32_length (n : Nat) : (enc32 n).length = 4 := rfl

theorem leU32_enc32 (n : Nat) (h : n < 4294967296) : leU32 (enc32 n) = n := by
  simp only [enc32, leU32, List.getD]
  simp
  omega

theorem asInt32_small (n : Nat) (h : n < 2147483648) : asInt32 n = (n : Int) := by
  simp [asInt32, h]

/-- An instance as produced by load + initialize + activate, queue empty. -/
def activeInst : Instance :=
  ⟨true, true, true, true, [], false, false, false, false⟩

/-- An instance whose editor session is in the Attached state. -/
def attachedInst : Instance :=
  ⟨true, true, true, true, [], true, true, true, true⟩

/-- Concrete third-party state behaviour for witnesses: the component state
5 serialises to `[5]` and only `[5]` restores it; the controller state 7
serialises to `[7]` and only `[7]` restores it; `setComponentState` leaves
the controller state alone. -/
def sampleOps : CodecOps where
  compGetState := fun s => some [s % 256]
  compSetState := fun b _ => if b = [5] then some 5 else none
  ctrlGetState := fun s => some [s % 256]
  ctrlSetState := fun b _ => if b = [7] then some 7 else none
  ctrlSetComponentState := fun _ s => s

/-- Codec view of an instance with both capability objects. -/
def sampleCodecInst : CodecInst := ⟨true, true, 5, 7⟩

/-- An 8-byte state record whose header declares (as uint32, native order)
`processorLength = 2147483648` and `controllerLength = 0`. -/
def c1BadRecord : List Nat := [0, 0, 0, 128, 0, 0, 0, 0]

/-- C10: for a valid instance with a processor, an event type other than
0 (note-on), 1 (note-off) or 2 (control-change) makes
`vst3_process_midi_event` fail with "Unknown MIDI event type" and the
event queue (indeed the whole instance) is left unchanged. -/
theorem midi_unknown_type_rejected (inst : Instance) (t c d1 d2 off : Int)
    (hp : inst.hasProcessor = true) (h0 : t ≠ 0) (h1 : t ≠ 1) (h2 : t ≠ 2) :
    vst3_process_midi_event inst t c d1 d2 off = (some .unknownMidiEventType, inst) := by
  simp [vst3_process_midi_event, hp, h0, h1, h2]

theorem midi_unknown_type_rejected_inst :
    vst3_process_midi_event activeInst 3 0 60 100 0 = (some .unknownMidiEventType, activeInst) :=
  midi_unknown_type_rejected activeInst 3 0 60 100 0 rfl (by decide) (by decide) (by decide)

/-- C3: after any `vst3_process_audio` call on an active instance (an
instance can only become active through `vst3_activate_plugin`, which
requires a processor), the event queue holds zero pending events,
whatever the queue held before and whatever `tresult` the plugin's
`process` call returned. -/
theorem process_audio_clears_queue (inst : Instance) (procResult : Int)
    (ha : inst.active = true) (hp : inst.hasProcessor = true) :
    ((vst3_process_audio inst procResult).2).midi_events = [] := by
  unfold vst3_process_audio
  simp only [ha, hp, and_self, not_true_eq_false, if_false]
  split <;> rfl

theorem process_audio_clears_queue_inst :
    ((vst3_process_audio
        { activeInst with midi_events := [⟨.noteOn, 0, 60, 100, 0⟩] } 4).2).midi_events = [] :=
  process_audio_clears_queue _ 4 rfl rfl

/-- C8: with the editor session Closed (`editor_open = false`),
`vst3_attach_editor` fails with the documented "Editor not opened" error,
makes no call on any view, and leaves the instance unchanged — in
particular no window handle is recorded. -/
theorem attach_editor_requires_open (inst : Instance) (vb : ViewBehavior)
    (ho : inst.editor_open = false) :
    vst3_attach_editor inst vb true = (some .editorNotOpened, inst, []) := by
  simp [vst3_attach_editor, ho]

theorem attach_editor_requires_open_inst :
    vst3_attach_editor activeInst ⟨true, true, true⟩ true =
      (some .editorNotOpened, activeInst, []) :=
  attach_editor_requires_open activeInst ⟨true, true, true⟩ rfl

/-- C9: from every reachable editor state (Closed, Open or Attached — in
all of which a missing view implies no recorded window handle),
`vst3_close_editor` ends with the session Closed: `editor_open` false,
view released, plug frame cleared, window handle cleared; and a second
call is a no-op that performs no view calls and stays Closed. -/
theorem close_editor_ends_closed_idempotent (inst : Instance)
    (hreach : inst.editor_view = false → inst.parent_window = false) :
    ((vst3_close_editor inst).1.editor_open = false ∧
     (vst3_close_editor inst).1.editor_view = false ∧
     (vst3_close_editor inst).1.plug_frame = false ∧
     (vst3_close_editor inst).1.parent_window = false) ∧
    vst3_close_editor (vst3_close_editor inst).1 = ((vst3_close_editor inst).1, []) := by
  obtain ⟨p, c, i, a, m, ev, pf, pw, eo⟩ := inst
  cases ev <;> cases pw <;> simp_all [vst3_close_editor]

theorem close_editor_ends_closed_idempotent_inst :
    ((vst3_close_editor attachedInst).1.editor_open = false ∧
     (vst3_close_editor attachedInst).1.editor_view = false ∧
     (vst3_close_editor attachedInst).1.plug_frame = false ∧
     (vst3_close_editor attachedInst).1.parent_window = false) ∧
    vst3_close_editor (vst3_close_editor attachedInst).1 =
      ((vst3_close_editor attachedInst).1, []) :=
  close_editor_ends_closed_idempotent attachedInst (by decide)

/-- C5: in every execution of `vst3_attach_editor`, whenever the view's
attach entry point is reached, the host's resize-notification frame was
already installed: every `attachedCall` in the emitted trace is strictly
preceded by a `setFrameHost`. -/
theorem attach_setFrame_before_attached (inst : Instance) (vb : ViewBehavior)
    (pv : Bool) :
    SetFrameBeforeAttached (vst3_attach_editor inst vb pv).2.2 := by
  obtain ⟨p, c, i, a, m, ev, pf, pw, eo⟩ := inst
  obtain ⟨ps, gs, ao⟩ := vb
  cases pv <;> cases eo <;> cases ev <;> cases pw <;> cases ps <;> cases ao <;>
    (simp only [vst3_attach_editor, Bool.not_true, Bool.not_false, if_true, if_false,
       Bool.false_eq_true, Bool.true_eq_false, not_false_eq_true, not_true_eq_false,
       ite_true, ite_false, List.nil_append, List.cons_append]
     unfold SetFrameBeforeAttached
     decide)

theorem attach_setFrame_before_attached_inst :
    SetFrameBeforeAttached (vst3_attach_editor attachedInst ⟨true, true, true⟩ true).2.2 :=
  attach_setFrame_before_attached attachedInst ⟨true, true, true⟩ true

/-- C6: a resize notification arriving while another one is being serviced
(the frame's recursion guard is set for the whole service of a call, so a
request the view issues synchronously from `onSize` runs with
`guard = true`) is answered with the negative acknowledgement
`kResultFalse` and has no effects: no container resize, no `onSize`
notification, no reprocessing.  Dually, every nested reply recorded inside
an outer (unguarded) call is that same negative, effect-free answer. -/
theorem resizeView_reentrant_rejected (hp : Bool) (v : ResizeViewModel) (r : VRect)
    (hv : v.viewPtrValid = true) :
    PlugFrame.resizeView hp v (some r) true = (kResultFalse, []) ∧
    (∀ res fx, RVEffect.nestedReply res fx ∈ (PlugFrame.resizeView hp v (some r) false).2 →
      res = kResultFalse ∧ fx = []) := by
  have hguard : ∀ q : VRect, PlugFrame.resizeView hp v (some q) true = (kResultFalse, []) := by
    intro q
    unfold PlugFrame.resizeView
    simp [hv]
  refine ⟨hguard r, ?_⟩
  intro res fx hmem
  rw [show PlugFrame.resizeView hp v (some r) false =
      (kResultTrue,
        (if hp then [RVEffect.resizeContainer (r.right - r.left) (r.bottom - r.top)] else []) ++
        (if v.getSizeOk = true ∧
            (¬v.cached.right - v.cached.left = r.right - r.left ∨
             ¬v.cached.bottom - v.cached.top = r.bottom - r.top) then
          RVEffect.onSizeCall r ::
            List.replicate v.nested.length (RVEffect.nestedReply kResultFalse [])
        else [])) from by
    unfold PlugFrame.resizeView
    simp [hv, hguard]] at hmem
  simp only [List.mem_append] at hmem
  rcases hmem with hmem | hmem
  · rcases hp with _ | _ <;> simp_all
  · split at hmem
    · simp only [List.mem_cons] at hmem
      rcases hmem with hmem | hmem
      · simp_all
      · have heq := List.eq_of_mem_replicate hmem
        injection heq with h1 h2
        exact ⟨h1, h2⟩
    · simp at hmem

theorem resizeView_reentrant_rejected_inst :
    PlugFrame.resizeView true ⟨true, true, ⟨0, 0, 10, 10⟩, [⟨0, 0, 5, 5⟩]⟩
        (some ⟨0, 0, 20, 20⟩) true = (kResultFalse, []) ∧
    (∀ res fx, RVEffect.nestedReply res fx ∈
        (PlugFrame.resizeView true ⟨true, true, ⟨0, 0, 10, 10⟩, [⟨0, 0, 5, 5⟩]⟩
          (some ⟨0, 0, 20, 20⟩) false).2 →
      res = kResultFalse ∧ fx = []) :=
  resizeView_reentrant_rejected true ⟨true, true, ⟨0, 0, 10, 10⟩, [⟨0, 0, 5, 5⟩]⟩
    ⟨0, 0, 20, 20⟩ rfl

theorem midi_enqueue_step (inst : Instance) (t c d1 d2 off : Int)
    (hp : inst.hasProcessor = true) (ht : t = 0 ∨ t = 1)
    (hlen : inst.midi_events.length < 128) :
    ∃ e : MidiEvent, vst3_process_midi_event inst t c d1 d2 off =
      (none, { inst with midi_events := inst.midi_events ++ [e] }) := by
  rcases ht with h | h <;> subst h <;>
    simp [vst3_process_midi_event, hp, hostAddEvent, eventListAddEvent,
      eventQueueCapacity, hlen]

theorem enqueueSeq_all_ok (specs : List (Int × Int × Int × Int × Int)) (inst : Instance)
    (hp : inst.hasProcessor = true)
    (hty : ∀ s ∈ specs, s.1 = 0 ∨ s.1 = 1)
    (hcap : inst.midi_events.length + specs.length ≤ 128) :
    (enqueueSeq specs inst).1 = true ∧
    (enqueueSeq specs inst).2.hasProcessor = true ∧
    (enqueueSeq specs inst).2.midi_events.length =
      inst.midi_events.length + specs.length := by
  induction specs generalizing inst with
  | nil => exact ⟨rfl, hp, by simp [enqueueSeq]⟩
  | cons s rest ih =>
    obtain ⟨t, c, d1, d2, off⟩ := s
    have hts : t = 0 ∨ t = 1 := hty _ (List.mem_cons_self _ _)
    have hlen : inst.midi_events.length < 128 := by
      have := List.length_cons (t, c, d1, d2, off) rest
      omega
    obtain ⟨e, he⟩ := midi_enqueue_step inst t c d1 d2 off hp hts hlen
    have hrest := ih { inst with midi_events := inst.midi_events ++ [e] }
      (by simpa using hp) (fun s hs => hty s (List.mem_cons_of_mem _ hs))
      (by simp; simp at hcap; omega)
    simp only [enqueueSeq, he]
    refine ⟨hrest.1, hrest.2.1, ?_⟩
    rw [hrest.2.2]
    simp
    omega

/-- C7: starting from an empty queue, any 128 note-on/note-off enqueues
between two process calls all succeed, and a 129th enqueue fails with the
queue-full error, the engine leaving the queue exactly as it was (no
dropping or coalescing on the caller's behalf). -/
theorem midi_queue_capacity_128 (inst : Instance)
    (specs : List (Int × Int × Int × Int × Int)) (t c d1 d2 off : Int)
    (hp : inst.hasProcessor = true) (hemp : inst.midi_events = [])
    (hlen : specs.length = 128) (hty : ∀ s ∈ specs, s.1 = 0 ∨ s.1 = 1)
    (ht : t = 0 ∨ t = 1) :
    (enqueueSeq specs inst).1 = true ∧
    vst3_process_midi_event (enqueueSeq specs inst).2 t c d1 d2 off =
      (some .queueFull, (enqueueSeq specs inst).2) := by
  obtain ⟨h1, h2, h3⟩ := enqueueSeq_all_ok specs inst hp hty (by rw [hemp, hlen]; simp)
  refine ⟨h1, ?_⟩
  have hfull : ¬(enqueueSeq specs inst).2.midi_events.length < 128 := by
    rw [h3, hemp, hlen]
    simp
  rcases ht with h | h <;> subst h <;>
    simp [vst3_process_midi_event, h2, hostAddEvent, eventListAddEvent,
      eventQueueCapacity, hfull]

theorem midi_queue_capacity_128_inst :
    (enqueueSeq (List.replicate 128 ((0 : Int), (0 : Int), (60 : Int), (100 : Int), (0 : Int)))
        activeInst).1 = true ∧
    vst3_process_midi_event
        (enqueueSeq (List.replicate 128 ((0 : Int), (0 : Int), (60 : Int), (100 : Int), (0 : Int)))
          activeInst).2 1 0 60 0 0 =
      (some .queueFull,
        (enqueueSeq (List.replicate 128 ((0 : Int), (0 : Int), (60 : Int), (100 : Int), (0 : Int)))
          activeInst).2) :=
  midi_queue_capacity_128 activeInst _ 1 0 60 0 0 rfl rfl (by simp)
    (fun s hs => by rw [List.eq_of_mem_replicate hs]; left; rfl) (Or.inr rfl)

/-- C1 (falsified as stated): the spec's wire format declares the two
header lengths as `uint32`, and the claim demands that any record whose
declared lengths satisfy `8 + processorLength + controllerLength > len`
fail with `StateFormatError`.  The 8-byte record `c1BadRecord` declares
(as uint32, native order) `processorLength = 2147483648` — so
`8 + 2147483648 + 0 > 8` and the import must fail — yet `vst3_set_state`
reads the field into a signed `int32` (value `-2147483648`), its
validation `8 + p + c > size` therefore passes, and the call returns
success (applying nothing, since `p > 0` is also false on the negative
value).  The code contradicts the spec's declared validation. -/
theorem set_state_oversized_header_accepted :
    leU32 (c1BadRecord.take 4) = 2147483648 ∧
    8 + leU32 (c1BadRecord.take 4) + leU32 ((c1BadRecord.drop 4).take 4) >
      c1BadRecord.length ∧
    vst3_set_state sampleOps sampleCodecInst c1BadRecord = (none, sampleCodecInst) := by
  refine ⟨by decide, by decide, ?_⟩
  decide

/-- C4: a successful export into a large-enough buffer produces exactly
`[4-byte processorLength][4-byte controllerLength][processor blob]
[controller blob]` (lengths in native order; they are `int32` values in
the source, hence < 2^31), returns total size `8 + processorLength +
controllerLength`, and the controller length is 0 whenever the instance
has no controller or the controller's state query fails. -/
theorem get_state_record_layout (ops : CodecOps) (inst : CodecInst) (maxSize : Int)
    (pBlob : List Nat)
    (hc : inst.hasComponent = true)
    (hg : ops.compGetState inst.comp = some pBlob)
    (hp31 : pBlob.length < 2147483648)
    (hc31 : (controllerBlob ops inst).length < 2147483648)
    (hmax : 8 + (pBlob.length : Int) + ((controllerBlob ops inst).length : Int) ≤ maxSize) :
    vst3_get_state ops inst maxSize =
      some (8 + (pBlob.length : Int) + ((controllerBlob ops inst).length : Int),
        enc32 pBlob.length ++ enc32 (controllerBlob ops inst).length ++
          pBlob ++ controllerBlob ops inst) ∧
    (enc32 pBlob.length ++ enc32 (controllerBlob ops inst).length ++
        pBlob ++ controllerBlob ops inst).length =
      8 + pBlob.length + (controllerBlob ops inst).length ∧
    ((inst.hasController = false ∨ ops.ctrlGetState inst.ctrl = none) →
      controllerBlob ops inst = []) := by
  have h8 : ¬(maxSize < 8) := by omega
  have hle : ¬(8 + (pBlob.length : Int) + ((controllerBlob ops inst).length : Int) > maxSize) := by
    omega
  refine ⟨?_, ?_, ?_⟩
  · simp [vst3_get_state, hc, hg, h8, hle]
  · simp only [enc32, List.length_append, List.length_cons, List.length_nil]
  · intro h
    cases hcc : inst.hasController <;>
      rcases h with h | h <;>
      simp_all [controllerBlob]

theorem get_state_record_layout_inst :
    vst3_get_state sampleOps sampleCodecInst 100 =
      some (8 + ((([5] : List Nat).length : Int)) +
          (((controllerBlob sampleOps sampleCodecInst).length : Int)),
        enc32 ([5] : List Nat).length ++
          enc32 (controllerBlob sampleOps sampleCodecInst).length ++
          [5] ++ controllerBlob sampleOps sampleCodecInst) ∧
    (enc32 ([5] : List Nat).length ++
        enc32 (controllerBlob sampleOps sampleCodecInst).length ++
        [5] ++ controllerBlob sampleOps sampleCodecInst).length =
      8 + ([5] : List Nat).length + (controllerBlob sampleOps sampleCodecInst).length ∧
    ((sampleCodecInst.hasController = false ∨
        sampleOps.ctrlGetState sampleCodecInst.ctrl = none) →
      controllerBlob sampleOps sampleCodecInst = []) :=
  get_state_record_layout sampleOps sampleCodecInst 100 [5] rfl (by decide)
    (by decide) (by decide) (by decide)

theorem set_state_reimport (ops : CodecOps) (inst : CodecInst) (pB cB : List Nat)
    (hc : inst.hasComponent = true) (hctl : inst.hasController = true)
    (hp31 : pB.length < 2147483648) (hc31 : cB.length < 2147483648)
    (hrt1 : ops.compSetState pB inst.comp = some inst.comp)
    (hrt2 : ops.ctrlSetComponentState pB inst.ctrl = inst.ctrl)
    (hrt3 : ops.ctrlSetState cB inst.ctrl = some inst.ctrl) :
    vst3_set_state ops inst (enc32 pB.length ++ enc32 cB.length ++ pB ++ cB) =
      (none, inst) := by
  obtain ⟨hasC, hasCt, compS, ctrlS⟩ := inst
  dsimp only at hc hctl hrt1 hrt2 hrt3
  subst hc
  subst hctl
  have hform : enc32 pB.length ++ enc32 cB.length ++ pB ++ cB
      = enc32 pB.length ++ (enc32 cB.length ++ (pB ++ cB)) := by
    simp [List.append_assoc]
  have hform2 : enc32 pB.length ++ enc32 cB.length ++ pB ++ cB
      = (enc32 pB.length ++ enc32 cB.length) ++ (pB ++ cB) := by
    simp [List.append_assoc]
  have hlen : (enc32 pB.length ++ enc32 cB.length ++ pB ++ cB).length
      = 8 + pB.length + cB.length := by
    simp only [List.length_append, enc32, List.length_cons, List.length_nil]
  have htake4 : (enc32 pB.length ++ enc32 cB.length ++ pB ++ cB).take 4
      = enc32 pB.length := by
    rw [hform]
    exact List.take_left' (enc32_length _)
  have hdrop4 : (enc32 pB.length ++ enc32 cB.length ++ pB ++ cB).drop 4
      = enc32 cB.length ++ (pB ++ cB) := by
    rw [hform]
    exact List.drop_left' (enc32_length _)
  have htake44 : ((enc32 pB.length ++ enc32 cB.length ++ pB ++ cB).drop 4).take 4
      = enc32 cB.length := by
    rw [hdrop4]
    exact List.take_left' (enc32_length _)
  have hdrop8 : (enc32 pB.length ++ enc32 cB.length ++ pB ++ cB).drop 8 = pB ++ cB := by
    rw [hform2]
    exact List.drop_left' (by simp [enc32])
  have hdecp : asInt32 (leU32 ((enc32 pB.length ++ enc32 cB.length ++ pB ++ cB).take 4))
      = (pB.length : Int) := by
    rw [htake4, leU32_enc32 _ (by omega), asInt32_small _ hp31]
  have hdecc : asInt32 (leU32 (((enc32 pB.length ++ enc32 cB.length ++ pB ++ cB).drop 4).take 4))
      = (cB.length : Int) := by
    rw [htake44, leU32_enc32 _ (by omega), asInt32_small _ hc31]
  have hn8 : ¬((enc32 pB.length ++ enc32 cB.length ++ pB ++ cB).length < 8) := by
    rw [hlen]
    omega
  have hval : ¬((8 : Int) + (pB.length : Int) + (cB.length : Int)
      > ((enc32 pB.length ++ enc32 cB.length ++ pB ++ cB).length : Int)) := by
    rw [hlen]
    push_cast
    omega
  unfold vst3_set_state
  rw [if_neg hn8, if_neg (by simp)]
  simp only [hdecp, hdecc, hdrop8]
  rw [if_neg hval]
  by_cases hpb : pB = []
  · subst hpb
    simp only [List.length_nil, Nat.cast_zero, List.nil_append, gt_iff_lt,
      lt_self_iff_false, if_false, ite_false]
    by_cases hcb0 : cB = []
    · subst hcb0
      simp
    · have hcpos : (0 : Int) < (cB.length : Int) := by
        exact_mod_cast List.length_pos.mpr hcb0
      simp [hcpos, hrt3]
  · have hppos : (0 : Int) < (pB.length : Int) := by
      exact_mod_cast List.length_pos.mpr hpb
    have htakep : (pB ++ cB).take ((pB.length : Int)).toNat = pB := by
      rw [Int.toNat_natCast]
      exact List.take_left pB cB
    have hdropp : (pB ++ cB).drop ((pB.length : Int)).toNat = cB := by
      rw [Int.toNat_natCast]
      exact List.drop_left pB cB
    by_cases hcb0 : cB = []
    · subst hcb0
      simp [hppos, htakep, hrt1, hrt2]
    · have hcpos : (0 : Int) < (cB.length : Int) := by
        exact_mod_cast List.length_pos.mpr hcb0
      simp [hppos, hcpos, htakep, hdropp, hrt1, hrt2, hrt3]

/-- C2: for a plugin whose processor and controller state streams
round-trip through their own `getState`/`setState` (re-applying a blob a
stream serialised restores that stream's state, and syncing the controller
from the component state it already mirrors leaves it unchanged), a record
produced by `vst3_get_state` into a large-enough buffer is accepted by
`vst3_set_state` on the same instance, the call succeeds, and the
instance's observable state (component state and controller state, hence
parameter values and processing behaviour) is exactly the exported one. -/
theorem state_roundTrip_preserved (ops : CodecOps) (inst : CodecInst) (maxSize : Int)
    (pB cB : List Nat)
    (hc : inst.hasComponent = true) (hctl : inst.hasController = true)
    (hg : ops.compGetState inst.comp = some pB)
    (hcg : ops.ctrlGetState inst.ctrl = some cB)
    (hp31 : pB.length < 2147483648) (hc31 : cB.length < 2147483648)
    (hmax : 8 + (pB.length : Int) + (cB.length : Int) ≤ maxSize)
    (hrt1 : ops.compSetState pB inst.comp = some inst.comp)
    (hrt2 : ops.ctrlSetComponentState pB inst.ctrl = inst.ctrl)
    (hrt3 : ops.ctrlSetState cB inst.ctrl = some inst.ctrl) :
    ∃ total record, vst3_get_state ops inst maxSize = some (total, record) ∧
      vst3_set_state ops inst record = (none, inst) := by
  have hcb : controllerBlob ops inst = cB := by
    simp [controllerBlob, hctl, hcg]
  refine ⟨8 + (pB.length : Int) + (cB.length : Int),
    enc32 pB.length ++ enc32 cB.length ++ pB ++ cB, ?_, ?_⟩
  · have h8 : ¬(maxSize < 8) := by omega
    have hle : ¬(8 + (pB.length : Int) + (cB.length : Int) > maxSize) := by omega
    simp [vst3_get_state, hc, hg, hcb, h8, hle]
  · exact set_state_reimport ops inst pB cB hc hctl hp31 hc31 hrt1 hrt2 hrt3

theorem state_roundTrip_preserved_inst :
    ∃ total record, vst3_get_state sampleOps sampleCodecInst 100 = some (total, record) ∧
      vst3_set_state sampleOps sampleCodecInst record = (none, sampleCodecInst) :=
  state_roundTrip_preserved sampleOps sampleCodecInst 100 [5] [7] rfl rfl (by decide)
    (by decide) (by decide) (by decide) (by decide) (by decide) (by decide) (by decide)
